import Mathlib

/-!
Shallow embedding of the ML-lineage-tracker repository:
the entity model (`core/dataset.py`, `core/run.py`, `core/model.py`) and the
repository layer (`storage/dataset_repository.py`, `storage/model_repository.py`,
`storage/run_repository.py`).

Modelling conventions:
* Python `datetime` values are modelled by `Datetime := Int` (microseconds on an
  abstract timeline).  Python's `datetime.isoformat` is a bijection onto its
  ISO-8601 renderings and `datetime.fromisoformat` is its inverse, so an ISO
  string is represented by the `Datetime` it denotes (`TimeRepr.isoStr`), a
  numeric epoch value by `TimeRepr.epochNum`, an un-serialized `datetime`
  object by `TimeRepr.dtObj`, and JSON/SQL null by `TimeRepr.rawNone`.
* Python exceptions are values of `PyError`; fallible code returns `Except`.
* Dictionaries that are merely passed through (`parameters`, `metrics`) are
  modelled as finite maps `PyDict` of string keys to primitive `PyVal` values.
* The remote store behind one repository is a table: a list of rows plus the
  set of keys whose remote query raises a transport error (the repositories
  uniformly re-raise those as `RuntimeError` with an interpolated message; the
  interpolated transport detail is abstracted to the fixed text
  "transport failure").
-/

/-- Python's exception kinds that appear in the modelled code paths. -/
inductive PyError where
  | valueError (msg : String)
  | runtimeError (msg : String)
  | attributeError (msg : String)
  deriving DecidableEq, Repr

/-- Primitive Python values carried inside `parameters` / `metrics` dicts. -/
inductive PyVal where
  | vStr (s : String)
  | vInt (n : Int)
  | vBool (b : Bool)
  | vNone
  deriving DecidableEq, Repr

/-- A Python dict of string keys and primitive values (passed through the
serialization layer untouched). -/
abbrev PyDict := List (String × PyVal)

/-- A Python `datetime` value: microseconds on an abstract timeline; `<` models
datetime comparison. -/
abbrev Datetime := Int

/-- A serialized timestamp field as it travels in a record/row.  An ISO-8601
string is represented by the `Datetime` it denotes (see file header). -/
inductive TimeRepr where
  | isoStr (t : Datetime)
  | epochNum (n : Int)
  | dtObj (t : Datetime)
  | rawNone
  deriving DecidableEq, Repr

/-- `datetime.fromtimestamp`: interprets an epoch value in seconds as a
`Datetime` (microseconds). -/
def fromtimestamp (n : Int) : Datetime := n * 1000000

/-- Python `a or b` on optional strings: `a` is taken when it is truthy
(present and non-empty), otherwise `b`. -/
def pyOrStr (a b : Option String) : Option String :=
  match a with
  | some s => if s = "" then b else some s
  | none => b

/-! ## core/dataset.py -/

/-- A validly constructed `Dataset` object (field layout of `Dataset.__init__`). -/
structure Dataset where
  name : String
  version : String
  source : String
  actor : String
  description : Option String
  deriving DecidableEq, Repr

namespace Dataset

/-- `Dataset.__init__` together with `_enforce_required_fields`: assigns the
fields, then validates them in source order, raising `ValueError` on the first
missing required field. -/
def mk? (name version source actor : String) (description : Option String) :
    Except PyError Dataset :=
  if name = "" then .error (.valueError "Name is required")
  else if version = "" then .error (.valueError "Version is required")
  else if source = "" then .error (.valueError "Source is required")
  else if actor = "" then .error (.valueError "Actor is required")
  else .ok ⟨name, version, source, actor, description⟩

/-- The flat record produced by `Dataset.to_record` (and the row shape of the
`Dataset` table). -/
structure Record where
  name : String
  version : String
  source : String
  actor : String
  description : Option String
  deriving DecidableEq, Repr

/-- `Dataset.to_record`. -/
def to_record (d : Dataset) : Record :=
  ⟨d.name, d.version, d.source, d.actor, d.description⟩

/-- `Dataset.from_record`: reads the fields back and re-runs construction-time
validation. -/
def from_record (r : Record) : Except PyError Dataset :=
  mk? r.name r.version r.source r.actor r.description

end Dataset

/-! ## core/model.py -/

/-- A validly constructed `Model` object (field layout of `Model.__init__`). -/
structure Model where
  artifact_uri : String
  model_name : String
  associated_run_id : String
  lifecycle_stage : String
  deriving DecidableEq, Repr

namespace Model

/-- `Model.ALLOWED_STAGES`. -/
def ALLOWED_STAGES : List String := ["registered", "staging", "production", "archived"]

/-- `Model.__init__` together with `_enforce_required_fields`, validating in
source order. -/
def mk? (artifact_uri model_name associated_run_id lifecycle_stage : String) :
    Except PyError Model :=
  if artifact_uri = "" then .error (.valueError "Artifact URI is required")
  else if associated_run_id = "" then .error (.valueError "Associated run is required")
  else if model_name = "" then .error (.valueError "Model name is required")
  else if lifecycle_stage = "" ∨ lifecycle_stage ∉ ALLOWED_STAGES then
    .error (.valueError "Invalid lifecycle stage")
  else .ok ⟨artifact_uri, model_name, associated_run_id, lifecycle_stage⟩

/-- The flat record produced by `Model.to_record` (and the row shape of the
`Model` table). -/
structure Record where
  artifact_uri : String
  model_name : String
  associated_run_id : String
  lifecycle_stage : String
  deriving DecidableEq, Repr

/-- `Model.to_record`. -/
def to_record (m : Model) : Record :=
  ⟨m.artifact_uri, m.model_name, m.associated_run_id, m.lifecycle_stage⟩

/-- Runtime behaviour of evaluating `Model.from_record(record)`: `core/model.py`
defines only `__init__`, `_enforce_required_fields` and `to_record`; the class
has no attribute `from_record`, so the attribute lookup performed by its callers
(`ModelRepository.get_model`, `ModelRepository.list_models`) raises
`AttributeError` before any record is examined. -/
def from_record_call (_r : Record) : Except PyError Model :=
  .error (.attributeError "type object Model has no attribute from_record")

end Model

/-! ## core/run.py -/

/-- A validly constructed `Run` object; fields in the assignment order of
`Run.__init__`. -/
structure Run where
  dataset_id : String
  actor : String
  parameters : PyDict
  code_reference : Option String
  run_name : String
  metrics : PyDict
  start_time : Datetime
  end_time : Option Datetime
  deriving DecidableEq, Repr

namespace Run

/-- `Run.__init__` together with `_enforce_required_fields`.  `parameters` is
`none` for Python `None` (the `isinstance(..., dict)` test can only fail with
`None` in the modelled input space, where a supplied value is always a dict);
`start_time`/`end_time` are `none` for Python `None` (a `datetime` object is
always truthy).  `metrics = none` defaults to the empty dict.  Checks are in
source order. -/
def mk? (dataset_id run_name actor : String) (parameters : Option PyDict)
    (start_time : Option Datetime) (code_reference : Option String)
    (metrics : Option PyDict) (end_time : Option Datetime) :
    Except PyError Run :=
  if dataset_id = "" then .error (.valueError "Dataset is required")
  else if actor = "" then .error (.valueError "Actor is required")
  else if run_name = "" then .error (.valueError "Run name is required")
  else
    match parameters with
    | none => .error (.valueError "Parameters are required")
    | some ps =>
      match start_time with
      | none => .error (.valueError "Start time is required")
      | some t =>
        match end_time with
        | some e =>
          if e < t then .error (.valueError "End time must be greater than start time")
          else .ok ⟨dataset_id, actor, ps, code_reference, run_name,
                    metrics.getD [], t, some e⟩
        | none => .ok ⟨dataset_id, actor, ps, code_reference, run_name,
                       metrics.getD [], t, none⟩

/-- The flat record produced by `Run.to_record` and the row shape of the `Run`
table.  `name` and `run_name` are both optional keys because
`Run.from_record` accepts rows keyed either way (`record.get("name") or
record.get("run_name")`); `to_record` emits only `name`. -/
structure Record where
  dataset_id : String
  name : Option String
  run_name : Option String
  actor : String
  parameters : PyDict
  code_reference : Option String
  metrics : PyDict
  start_time : TimeRepr
  end_time : TimeRepr
  deriving DecidableEq, Repr

/-- Serialization of an optional `datetime` field in `Run.to_record`
(`isoformat` when the value is a datetime, pass-through of `None` otherwise). -/
def serializeOptTime : Option Datetime → TimeRepr
  | some t => .isoStr t
  | none => .rawNone

/-- `Run.to_record`: `start_time` of a validly constructed run is a datetime, so
it is serialized with `isoformat`. -/
def to_record (r : Run) : Record :=
  { dataset_id := r.dataset_id
    name := some r.run_name
    run_name := none
    actor := r.actor
    parameters := r.parameters
    code_reference := r.code_reference
    metrics := r.metrics
    start_time := .isoStr r.start_time
    end_time := serializeOptTime r.end_time }

/-- The `start_time` parsing of `Run.from_record`: numeric epoch through
`fromtimestamp`, string through `fromisoformat` (after `Z` normalization,
a no-op on the strings `isoformat` emits), anything else passed through
unchanged (`None` stays `None`). -/
def parseStartTime : TimeRepr → Option Datetime
  | .epochNum n => some (fromtimestamp n)
  | .isoStr t => some t
  | .dtObj t => some t
  | .rawNone => none

/-- The `end_time` parsing of `Run.from_record`: conversion happens only when
the raw value is truthy.  A falsy raw value (null, or the number 0 — which
Python would leave as the int `0`, behaviourally identical to `None` in every
later truthiness test) yields `none`. -/
def parseEndTime : TimeRepr → Option Datetime
  | .epochNum n => if n = 0 then none else some (fromtimestamp n)
  | .isoStr t => some t
  | .dtObj t => some t
  | .rawNone => none

/-- `Run.from_record`: parses the timestamp fields, resolves the run name from
the `name` key falling back to `run_name`, and re-runs construction-time
validation.  A name that resolves to Python `None` takes the same
"Run name is required" path as the empty string and is modelled by `""`. -/
def from_record (rec : Record) : Except PyError Run :=
  mk? rec.dataset_id ((pyOrStr rec.name rec.run_name).getD "") rec.actor
    (some rec.parameters) (parseStartTime rec.start_time) rec.code_reference
    (some rec.metrics) (parseEndTime rec.end_time)

end Run

/-! ## storage/dataset_repository.py

The remote `Dataset` table: its rows, plus the `(name, version)` keys whose
remote query raises a transport error.  The repository re-raises such errors as
`RuntimeError` with a message interpolating the transport detail (abstracted
here to "transport failure"). -/

structure DatasetTable where
  rows : List Dataset.Record
  failKeys : List (String × String)
  deriving DecidableEq, Repr

namespace DatasetRepository

/-- `DatasetRepository.get_dataset`: equality-filtered select on both key
fields; transport failure becomes `RuntimeError`; zero rows is `None`; the
first row is deserialized with `Dataset.from_record` (outside the try block,
so its validation errors propagate unwrapped). -/
def get_dataset (tbl : DatasetTable) (name version : String) :
    Except PyError (Option Dataset) :=
  if (name, version) ∈ tbl.failKeys then
    .error (.runtimeError "Error retrieving dataset: transport failure")
  else
    match tbl.rows.filter (fun r => decide (r.name = name) && decide (r.version = version)) with
    | [] => .ok none
    | rec :: _ => (Dataset.from_record rec).map some

/-- `DatasetRepository.get_dataset_id`: the same keyed lookup projected to the
store-assigned `dataset_id` column, whose per-row value (what
`row.get("dataset_id")` yields) is supplied by `ids` since that column is
store-generated and not part of the serialized record.  Zero rows yield
`None`; transport failure becomes `RuntimeError`. -/
def get_dataset_id (tbl : DatasetTable) (ids : Dataset.Record → Option String)
    (name version : String) : Except PyError (Option String) :=
  if (name, version) ∈ tbl.failKeys then
    .error (.runtimeError "Error retrieving dataset ID: transport failure")
  else
    match tbl.rows.filter (fun r => decide (r.name = name) && decide (r.version = version)) with
    | [] => .ok none
    | rec :: _ => .ok (ids rec)

/-- `DatasetRepository.delete_dataset`: validates both key parts, issues the
equality-filtered delete, and returns the surviving table together with the
number of deleted rows (`len(response.data or [])`). -/
def delete_dataset (tbl : DatasetTable) (name version : String) :
    Except PyError (DatasetTable × Nat) :=
  if name = "" ∨ version = "" then
    .error (.valueError "Both name and version are required to delete a dataset.")
  else if (name, version) ∈ tbl.failKeys then
    .error (.runtimeError "Error deleting dataset: transport failure")
  else
    let deleted := tbl.rows.filter (fun r => decide (r.name = name) && decide (r.version = version))
    .ok ({ tbl with
           rows := tbl.rows.filter (fun r => !(decide (r.name = name) && decide (r.version = version))) },
         deleted.length)

/-- The sequential per-pair loop of `DatasetRepository.batch_get`: pairs with an
empty name or version are skipped before any remote call; a per-item error
(transport or deserialization) propagates and aborts the loop. -/
def collect (tbl : DatasetTable) : List (String × String) → Except PyError (List Dataset)
  | [] => .ok []
  | (name, version) :: ps =>
    if name = "" ∨ version = "" then collect tbl ps
    else
      match get_dataset tbl name version with
      | .error e => .error e
      | .ok none => collect tbl ps
      | .ok (some d) => (collect tbl ps).map (d :: ·)

/-- `DatasetRepository.batch_get`: the collected datasets paired with
`len(datasets)`. -/
def batch_get (tbl : DatasetTable) (names_versions : List (String × String)) :
    Except PyError (List Dataset × Nat) :=
  (collect tbl names_versions).map (fun ds => (ds, ds.length))

/-- Number of remote `get` calls issued by `DatasetRepository.batch_get` on the
given input: skipped pairs cost nothing; a failing call is counted and aborts
the loop. -/
def batch_get_calls (tbl : DatasetTable) : List (String × String) → Nat
  | [] => 0
  | (name, version) :: ps =>
    if name = "" ∨ version = "" then batch_get_calls tbl ps
    else
      match get_dataset tbl name version with
      | .error _ => 1
      | .ok _ => 1 + batch_get_calls tbl ps

/-- `DatasetRepository.batch_delete`: sequential per-pair `delete_dataset` with
the same skip-on-invalid-pair rule, summing the individual counts. -/
def batch_delete (tbl : DatasetTable) : List (String × String) →
    Except PyError (DatasetTable × Nat)
  | [] => .ok (tbl, 0)
  | (name, version) :: ps =>
    if name = "" ∨ version = "" then batch_delete tbl ps
    else
      match delete_dataset tbl name version with
      | .error e => .error e
      | .ok (tbl2, c) => (batch_delete tbl2 ps).map (fun r => (r.1, c + r.2))

end DatasetRepository

/-! ## storage/model_repository.py -/

/-- The remote `Model` table: rows plus the model names whose remote query
raises a transport error. -/
structure ModelTable where
  rows : List Model.Record
  failNames : List String
  deriving DecidableEq, Repr

/-- An element of the `model_names` argument of `ModelRepository.batch_get`,
which Python does not constrain to strings. -/
inductive PyArg where
  | pyStr (s : String)
  | pyInt (n : Int)
  | pyNone
  deriving DecidableEq, Repr

/-- Python truthiness of a `PyArg`. -/
def pyTruthy : PyArg → Bool
  | .pyStr s => s ≠ ""
  | .pyInt n => n ≠ 0
  | .pyNone => false

/-- Whether a `PyArg` is a string (`isinstance(name, str)`). -/
def PyArg.isStr : PyArg → Bool
  | .pyStr _ => true
  | _ => false

namespace ModelRepository

/-- `ModelRepository.get_model`: validates the name, runs the equality-filtered
select, returns `None` on zero rows, and otherwise evaluates
`Model.from_record(row)` — which raises `AttributeError` because the class has
no such attribute (see `Model.from_record_call`). -/
def get_model (tbl : ModelTable) (model_name : String) :
    Except PyError (Option Model) :=
  if model_name = "" then .error (.valueError "Model name is required")
  else if model_name ∈ tbl.failNames then
    .error (.runtimeError "Failed to retrieve model: transport failure")
  else
    match tbl.rows.filter (fun r => decide (r.model_name = model_name)) with
    | [] => .ok none
    | rec :: _ => (Model.from_record_call rec).map some

/-- `ModelRepository.update_model`: validates the key, issues the
equality-filtered full-record update, and raises `RuntimeError` when zero rows
were affected. -/
def update_model (tbl : ModelTable) (m : Model) : Except PyError ModelTable :=
  if m.model_name = "" then .error (.valueError "Model is required for update")
  else if m.model_name ∈ tbl.failNames then
    .error (.runtimeError "Failed to update model: transport failure")
  else
    let record := Model.to_record m
    if (tbl.rows.filter (fun r => decide (r.model_name = m.model_name))).isEmpty then
      .error (.runtimeError "No model found to update")
    else
      .ok { tbl with
            rows := tbl.rows.map (fun r =>
              if r.model_name = m.model_name then record else r) }

/-- `ModelRepository.delete_model`: validates the key, issues the
equality-filtered delete, and raises `RuntimeError` when zero rows were
affected. -/
def delete_model (tbl : ModelTable) (model_name : String) :
    Except PyError ModelTable :=
  if model_name = "" then .error (.valueError "Model name is required for deletion")
  else if model_name ∈ tbl.failNames then
    .error (.runtimeError "Failed to delete model: transport failure")
  else
    if (tbl.rows.filter (fun r => decide (r.model_name = model_name))).isEmpty then
      .error (.runtimeError "No model found to delete")
    else
      .ok { tbl with rows := tbl.rows.filter (fun r => !decide (r.model_name = model_name)) }

/-- `ModelRepository.get_artifact_uri`: convenience projection through
`get_model`. -/
def get_artifact_uri (tbl : ModelTable) (model_name : String) :
    Except PyError (Option String) :=
  (get_model tbl model_name).map (fun o => o.map (·.artifact_uri))

/-- The per-name loop of `ModelRepository.batch_get`: a falsy entry is skipped
first (`if not name: continue`); only then is a non-string entry rejected with
`ValueError`; an absent lookup is skipped; a per-item error propagates. -/
def collect (tbl : ModelTable) : List PyArg → Except PyError (List Model)
  | [] => .ok []
  | arg :: rest =>
    if ¬pyTruthy arg then collect tbl rest
    else
      match arg with
      | .pyStr s =>
        match get_model tbl s with
        | .error e => .error e
        | .ok none => collect tbl rest
        | .ok (some m) => (collect tbl rest).map (m :: ·)
      | _ => .error (.valueError "Model names must be strings")

/-- `ModelRepository.batch_get`: an empty argument list short-circuits to an
empty result. -/
def batch_get (tbl : ModelTable) (model_names : List PyArg) :
    Except PyError (List Model) :=
  if model_names.isEmpty then .ok [] else collect tbl model_names

end ModelRepository

/-! ## storage/run_repository.py -/

/-- The remote `Run` table: rows plus the run names whose remote query raises a
transport error. -/
structure RunTable where
  rows : List Run.Record
  failNames : List String
  deriving DecidableEq, Repr

namespace RunRepository

/-- The record actually handed to the store by `RunRepository.add_run`: the
serialized run with `start_time` overwritten by `now` (the current naive-UTC
wall clock, serialized with `isoformat`).  The subsequent end-time fix-up
re-serializes `end_time` only when it is still a raw datetime object, which
`Run.to_record` never leaves behind. -/
def add_run_record (run : Run) (now : Datetime) : Run.Record :=
  let record := { run.to_record with start_time := TimeRepr.isoStr now }
  match record.end_time with
  | .dtObj t => { record with end_time := .isoStr t }
  | _ => record

/-- `RunRepository.add_run`: inserts the adjusted record. -/
def add_run (tbl : RunTable) (run : Run) (now : Datetime) : RunTable :=
  { tbl with rows := tbl.rows ++ [add_run_record run now] }

/-- `RunRepository.get_run`: validates the name, runs the equality-filtered
select on the `name` column, returns `None` on zero rows, and deserializes the
first row with `Run.from_record` (outside the try block, so its validation
errors propagate unwrapped). -/
def get_run (tbl : RunTable) (run_name : String) : Except PyError (Option Run) :=
  if run_name = "" then .error (.valueError "Run name is required to retrieve a run")
  else if run_name ∈ tbl.failNames then
    .error (.runtimeError "Error retrieving run: transport failure")
  else
    match tbl.rows.filter (fun r => decide (r.name = some run_name)) with
    | [] => .ok none
    | rec :: _ => (Run.from_record rec).map some

/-- `RunRepository.get_run_id`: validates the name, then the same keyed lookup
projected to the store-assigned `run_id` column, whose per-row value (what
`row.get("run_id")` yields) is supplied by `ids` since that column is
store-generated and not part of the serialized record.  Zero rows yield
`None`; transport failure becomes `RuntimeError`. -/
def get_run_id (tbl : RunTable) (ids : Run.Record → Option String) (name : String) :
    Except PyError (Option String) :=
  if name = "" then .error (.valueError "Run name is required to retrieve a run ID")
  else if name ∈ tbl.failNames then
    .error (.runtimeError "Error retrieving run ID: transport failure")
  else
    match tbl.rows.filter (fun r => decide (r.name = some name)) with
    | [] => .ok none
    | rec :: _ => .ok (ids rec)

/-- The per-name loop of `RunRepository.batch_get`: each lookup runs inside a
try block that catches only `RuntimeError` (the item is then skipped); any
other exception — notably the `ValueError` that `get_run` raises on an empty
name — propagates and aborts the batch. -/
def collect (tbl : RunTable) : List String → Except PyError (List Run)
  | [] => .ok []
  | n :: ns =>
    match get_run tbl n with
    | .ok (some r) => (collect tbl ns).map (r :: ·)
    | .ok none => collect tbl ns
    | .error (.runtimeError _) => collect tbl ns
    | .error e => .error e

/-- The two return shapes of `RunRepository.batch_get`: the early-exit tuple
`(collected_runs, 0)` versus the bare list of the main path. -/
inductive BatchGetResult where
  | tup (runs : List Run) (count : Nat)
  | bare (runs : List Run)
  deriving DecidableEq, Repr

/-- `RunRepository.batch_get`: an empty name list returns the tuple
`([], 0)`; otherwise the function returns the bare collected list. -/
def batch_get (tbl : RunTable) (run_names : List String) :
    Except PyError BatchGetResult :=
  if run_names.isEmpty then .ok (.tup [] 0)
  else (collect tbl run_names).map .bare

/-- `RunRepository.update_run`: full-record overwrite keyed by the serialized
record's `name`; raises `ValueError` when the name is missing/empty and
`RuntimeError` when zero rows were affected. -/
def update_run (tbl : RunTable) (run : Run) : Except PyError RunTable :=
  let record := run.to_record
  match pyOrStr record.name none with
  | none => .error (.valueError "Run name is required to update a run")
  | some rn =>
    if rn ∈ tbl.failNames then
      .error (.runtimeError "Failed to update run: transport failure")
    else if (tbl.rows.filter (fun r => decide (r.name = some rn))).isEmpty then
      .error (.runtimeError "No run found to update")
    else
      .ok { tbl with
            rows := tbl.rows.map (fun r => if r.name = some rn then record else r) }

/-- The row rewrite performed by the targeted partial update of
`RunRepository.end_run`: the payload carries only the `end_time` column, so a
matching row keeps every other field. -/
def patchEndTime (run_name : String) (t : TimeRepr) (r : Run.Record) : Run.Record :=
  if r.name = some run_name then { r with end_time := t } else r

/-- `RunRepository.end_run`: validates the name, fetches the current row via
`get_run` (whose errors propagate), raises `RuntimeError` when the run is
absent and `ValueError` when it already has an end time, and otherwise issues
the single-column update `set end_time = now.isoformat()`. -/
def end_run (tbl : RunTable) (run_name : String) (now : Datetime) :
    Except PyError RunTable :=
  if run_name = "" then .error (.valueError "Run name is required to end a run")
  else
    match get_run tbl run_name with
    | .error e => .error e
    | .ok none => .error (.runtimeError "Run not found")
    | .ok (some record) =>
      match record.end_time with
      | some _ => .error (.valueError "Run has already been ended")
      | none =>
        .ok { tbl with rows := tbl.rows.map (patchEndTime run_name (.isoStr now)) }

/-- `RunRepository.batch_create`: sequential `add_run`, skipping entries whose
`run_name` is empty; the wall clock is held fixed across the batch. -/
def batch_create (tbl : RunTable) (runs : List Run) (now : Datetime) : RunTable :=
  runs.foldl (fun t run => if run.run_name = "" then t else add_run t run now) tbl

/-- `RunRepository.delete_run`: validates the name, issues the
equality-filtered delete, and raises `RuntimeError` when zero rows were
affected. -/
def delete_run (tbl : RunTable) (run_name : String) : Except PyError RunTable :=
  if run_name = "" then .error (.valueError "Run name is required to delete a run")
  else if run_name ∈ tbl.failNames then
    .error (.runtimeError "Error deleting run: transport failure")
  else
    if (tbl.rows.filter (fun r => decide (r.name = some run_name))).isEmpty then
      .error (.runtimeError "No run found to delete")
    else
      .ok { tbl with rows := tbl.rows.filter (fun r => !decide (r.name = some run_name)) }

end RunRepository

/-! ## Supporting lemmas -/

/-- Serialization round trip for `Dataset`: `from_record` undoes `to_record` on
any validly constructed dataset. -/
theorem dataset_to_from_record (d : Dataset) (h1 : d.name ≠ "") (h2 : d.version ≠ "")
    (h3 : d.source ≠ "") (h4 : d.actor ≠ "") :
    Dataset.from_record (Dataset.to_record d) = .ok d := by
  obtain ⟨n, v, s, a, desc⟩ := d
  simp_all [Dataset.from_record, Dataset.to_record, Dataset.mk?]

/-- Serialization round trip for `Run`: `from_record` undoes `to_record` on any
validly constructed run, with the timestamps recovered exactly. -/
theorem run_to_from_record (r : Run) (h1 : r.dataset_id ≠ "") (h2 : r.actor ≠ "")
    (h3 : r.run_name ≠ "") (h4 : ∀ e, r.end_time = some e → ¬e < r.start_time) :
    Run.from_record (Run.to_record r) = .ok r := by
  obtain ⟨did, act, ps, cr, rn, ms, t, oe⟩ := r
  cases oe with
  | none =>
    simp_all [Run.from_record, Run.to_record, Run.mk?, Run.serializeOptTime,
      Run.parseStartTime, Run.parseEndTime, pyOrStr]
  | some e =>
    have he := h4 e rfl
    simp_all [Run.from_record, Run.to_record, Run.mk?, Run.serializeOptTime,
      Run.parseStartTime, Run.parseEndTime, pyOrStr]

/-! ## Claim theorems -/

/-- Claim C1: the record `RunRepository.add_run` hands to the store is exactly
the serialized run with its `start_time` field overwritten by the isoformat of
the current wall clock; every other serialized field passes through
unchanged. -/
theorem add_run_record_overwrites_start_time (run : Run) (now : Datetime) :
    RunRepository.add_run_record run now =
      { run.to_record with start_time := TimeRepr.isoStr now } := by
  cases h : run.end_time <;>
    simp [RunRepository.add_run_record, Run.to_record, Run.serializeOptTime, h]

/-- Claim C2 (code-bug evidence): evaluating `Model.from_record` on the output
of `Model.to_record` raises `AttributeError` for every model, because
`core/model.py` never defines `from_record` even though `ModelRepository` and
the test suite call it. -/
theorem model_from_record_call_attribute_error :
    ∀ m : Model, Model.from_record_call (Model.to_record m) =
      .error (.attributeError "type object Model has no attribute from_record") :=
  fun _ => rfl

/-- Claim C9: with all required fields present, `Run` construction fails with a
validation error when `end_time < start_time`, succeeds when
`end_time = start_time`, and succeeds with `metrics` defaulting to the empty
mapping when `end_time` and `metrics` are omitted. -/
theorem run_construction_end_time_cases (did rn act : String) (ps : PyDict)
    (cr : Option String) (ms : Option PyDict) (t e : Datetime)
    (h1 : did ≠ "") (h2 : rn ≠ "") (h3 : act ≠ "") :
    (e < t → Run.mk? did rn act (some ps) (some t) cr ms (some e) =
      .error (.valueError "End time must be greater than start time")) ∧
    Run.mk? did rn act (some ps) (some t) cr ms (some t) =
      .ok ⟨did, act, ps, cr, rn, ms.getD [], t, some t⟩ ∧
    Run.mk? did rn act (some ps) (some t) cr none none =
      .ok ⟨did, act, ps, cr, rn, [], t, none⟩ := by
  refine ⟨fun hlt => ?_, ?_, ?_⟩ <;>
    simp_all [Run.mk?]

/-- Witness for C9 at a concrete construction. -/
theorem run_construction_end_time_cases_w :
    (((3 : Int) < 5 → Run.mk? "d" "r" "a" (some []) (some 5) none none (some 3) =
      .error (.valueError "End time must be greater than start time")) ∧
    Run.mk? "d" "r" "a" (some []) (some 5) none none (some 5) =
      .ok ⟨"d", "a", [], none, "r", (none : Option PyDict).getD [], 5, some 5⟩ ∧
    Run.mk? "d" "r" "a" (some []) (some 5) none none none =
      .ok ⟨"d", "a", [], none, "r", [], 5, none⟩) :=
  run_construction_end_time_cases "d" "r" "a" [] none none 5 3
    (by decide) (by decide) (by decide)

/-- Claim C10: `RunRepository.batch_get` has no uniform return shape: the empty
name list yields the tuple `([], 0)`, while every successful call on a
non-empty name list yields a bare list. -/
theorem run_batch_get_return_shape :
    (∀ tbl : RunTable, RunRepository.batch_get tbl [] = .ok (.tup [] 0)) ∧
    (∀ (tbl : RunTable) (n : String) (ns : List String)
      (res : RunRepository.BatchGetResult),
      RunRepository.batch_get tbl (n :: ns) = .ok res → ∃ runs, res = .bare runs) := by
  refine ⟨fun tbl => rfl, fun tbl n ns res h => ?_⟩
  simp only [RunRepository.batch_get, List.isEmpty_cons, Bool.false_eq_true,
    if_false] at h
  cases hc : RunRepository.collect tbl (n :: ns) with
  | ok rs =>
    rw [hc] at h
    exact ⟨rs, by simpa [Except.map] using h.symm⟩
  | error e =>
    rw [hc] at h
    simp [Except.map] at h

/-- Witness for C10 at a concrete table and name list. -/
theorem run_batch_get_return_shape_w :
    RunRepository.batch_get ⟨[], []⟩ [] = .ok (.tup [] 0) ∧
    (RunRepository.batch_get ⟨[], []⟩ ["x"] = .ok (.bare []) ∧
      ∃ runs, RunRepository.BatchGetResult.bare ([] : List Run) = .bare runs) :=
  ⟨run_batch_get_return_shape.1 ⟨[], []⟩,
   rfl, run_batch_get_return_shape.2 ⟨[], []⟩ "x" [] (.bare []) rfl⟩

/-- Claim C3 counterexample: `end_run` on a store with no run of the requested
name fails with `RuntimeError("Run not found")` — a runtime error, not the
validation error the claim asserts. -/
theorem end_run_missing_run_cx :
    RunRepository.end_run ⟨[], []⟩ "r1" 0 = .error (.runtimeError "Run not found") :=
  rfl

/-- Claim C3 as amended: `end_run` fails with a runtime error when no run of
the given name exists, with a validation error when the stored run already has
an end time, and otherwise issues a targeted partial update that sets only the
`end_time` column of the matching rows and leaves every other stored field
unchanged. -/
theorem end_run_spec :
    (∀ (tbl : RunTable) (n : String) (now : Datetime), n ≠ "" →
      RunRepository.get_run tbl n = .ok none →
      RunRepository.end_run tbl n now = .error (.runtimeError "Run not found")) ∧
    (∀ (tbl : RunTable) (n : String) (now : Datetime) (r0 : Run), n ≠ "" →
      RunRepository.get_run tbl n = .ok (some r0) → r0.end_time.isSome →
      RunRepository.end_run tbl n now = .error (.valueError "Run has already been ended")) ∧
    (∀ (tbl : RunTable) (n : String) (now : Datetime) (r0 : Run), n ≠ "" →
      RunRepository.get_run tbl n = .ok (some r0) → r0.end_time = none →
      RunRepository.end_run tbl n now =
        .ok { tbl with
              rows := tbl.rows.map (RunRepository.patchEndTime n (.isoStr now)) }) ∧
    (∀ (n : String) (t : TimeRepr) (r : Run.Record),
      (RunRepository.patchEndTime n t r).dataset_id = r.dataset_id ∧
      (RunRepository.patchEndTime n t r).name = r.name ∧
      (RunRepository.patchEndTime n t r).run_name = r.run_name ∧
      (RunRepository.patchEndTime n t r).actor = r.actor ∧
      (RunRepository.patchEndTime n t r).parameters = r.parameters ∧
      (RunRepository.patchEndTime n t r).code_reference = r.code_reference ∧
      (RunRepository.patchEndTime n t r).metrics = r.metrics ∧
      (RunRepository.patchEndTime n t r).start_time = r.start_time ∧
      (r.name = some n → (RunRepository.patchEndTime n t r).end_time = t) ∧
      (r.name ≠ some n → RunRepository.patchEndTime n t r = r)) := by
  refine ⟨?_, ?_, ?_, ?_⟩
  · intro tbl n now hn hget
    simp [RunRepository.end_run, hn, hget]
  · intro tbl n now r0 hn hget hsome
    cases he : r0.end_time with
    | none => rw [he] at hsome; simp at hsome
    | some e => simp [RunRepository.end_run, hn, hget, he]
  · intro tbl n now r0 hn hget hnone
    simp [RunRepository.end_run, hn, hget, hnone]
  · intro n t r
    by_cases hm : r.name = some n <;>
      simp [RunRepository.patchEndTime, hm]

/-- Witness for C3 at concrete tables: a missing run, an already-ended run, and
an open run that gets patched. -/
theorem end_run_spec_w :
    RunRepository.end_run ⟨[], []⟩ "r9" 0 = .error (.runtimeError "Run not found") ∧
    RunRepository.end_run
        ⟨[⟨"d1", some "r1", none, "a", [], none, [], .isoStr 3, .isoStr 4⟩], []⟩ "r1" 9 =
      .error (.valueError "Run has already been ended") ∧
    RunRepository.end_run
        ⟨[⟨"d1", some "r1", none, "a", [], none, [], .isoStr 3, .rawNone⟩], []⟩ "r1" 9 =
      .ok { rows := ([⟨"d1", some "r1", none, "a", [], none, [], .isoStr 3,
                      .rawNone⟩] : List Run.Record).map
              (RunRepository.patchEndTime "r1" (.isoStr 9)),
            failNames := [] } ∧
    (RunRepository.patchEndTime "r1" (.isoStr 9)
        ⟨"d1", some "r1", none, "a", [], none, [], .isoStr 3, .rawNone⟩).start_time =
      TimeRepr.isoStr 3 :=
  ⟨end_run_spec.1 ⟨[], []⟩ "r9" 0 (by decide) rfl,
   end_run_spec.2.1 _ "r1" 9 ⟨"d1", "a", [], none, "r1", [], 3, some 4⟩
     (by decide) rfl rfl,
   end_run_spec.2.2.1 _ "r1" 9 ⟨"d1", "a", [], none, "r1", [], 3, none⟩
     (by decide) rfl rfl,
   (end_run_spec.2.2.2 "r1" (.isoStr 9)
     ⟨"d1", some "r1", none, "a", [], none, [], .isoStr 3, .rawNone⟩).2.2.2.2.2.2.2.1⟩

/-- Claim C4: when the keyed row is absent, every get operation — `get_dataset`,
`get_dataset_id`, `get_model`, `get_artifact_uri`, `get_run` and `get_run_id` —
returns an absent result without raising; `update_model`, `delete_model`,
`update_run` and `delete_run` raise a runtime error because zero rows were
affected; `delete_dataset` instead returns the count 0 without raising. -/
theorem missing_row_policy :
    (∀ (tbl : DatasetTable) (n v : String), (n, v) ∉ tbl.failKeys →
      tbl.rows.filter (fun r => decide (r.name = n) && decide (r.version = v)) = [] →
      DatasetRepository.get_dataset tbl n v = .ok none) ∧
    (∀ (tbl : DatasetTable) (ids : Dataset.Record → Option String) (n v : String),
      (n, v) ∉ tbl.failKeys →
      tbl.rows.filter (fun r => decide (r.name = n) && decide (r.version = v)) = [] →
      DatasetRepository.get_dataset_id tbl ids n v = .ok none) ∧
    (∀ (tbl : ModelTable) (n : String), n ≠ "" → n ∉ tbl.failNames →
      tbl.rows.filter (fun r => decide (r.model_name = n)) = [] →
      ModelRepository.get_model tbl n = .ok none) ∧
    (∀ (tbl : ModelTable) (n : String), n ≠ "" → n ∉ tbl.failNames →
      tbl.rows.filter (fun r => decide (r.model_name = n)) = [] →
      ModelRepository.get_artifact_uri tbl n = .ok none) ∧
    (∀ (tbl : RunTable) (n : String), n ≠ "" → n ∉ tbl.failNames →
      tbl.rows.filter (fun r => decide (r.name = some n)) = [] →
      RunRepository.get_run tbl n = .ok none) ∧
    (∀ (tbl : RunTable) (ids : Run.Record → Option String) (n : String),
      n ≠ "" → n ∉ tbl.failNames →
      tbl.rows.filter (fun r => decide (r.name = some n)) = [] →
      RunRepository.get_run_id tbl ids n = .ok none) ∧
    (∀ (tbl : ModelTable) (m : Model), m.model_name ≠ "" →
      m.model_name ∉ tbl.failNames →
      tbl.rows.filter (fun r => decide (r.model_name = m.model_name)) = [] →
      ModelRepository.update_model tbl m = .error (.runtimeError "No model found to update")) ∧
    (∀ (tbl : ModelTable) (n : String), n ≠ "" → n ∉ tbl.failNames →
      tbl.rows.filter (fun r => decide (r.model_name = n)) = [] →
      ModelRepository.delete_model tbl n = .error (.runtimeError "No model found to delete")) ∧
    (∀ (tbl : RunTable) (run : Run), run.run_name ≠ "" →
      run.run_name ∉ tbl.failNames →
      tbl.rows.filter (fun r => decide (r.name = some run.run_name)) = [] →
      RunRepository.update_run tbl run = .error (.runtimeError "No run found to update")) ∧
    (∀ (tbl : RunTable) (n : String), n ≠ "" → n ∉ tbl.failNames →
      tbl.rows.filter (fun r => decide (r.name = some n)) = [] →
      RunRepository.delete_run tbl n = .error (.runtimeError "No run found to delete")) ∧
    (∀ (tbl : DatasetTable) (n v : String), n ≠ "" → v ≠ "" →
      (n, v) ∉ tbl.failKeys →
      tbl.rows.filter (fun r => decide (r.name = n) && decide (r.version = v)) = [] →
      ∃ tbl2, DatasetRepository.delete_dataset tbl n v = .ok (tbl2, 0)) := by
  refine ⟨?_, ?_, ?_, ?_, ?_, ?_, ?_, ?_, ?_, ?_, ?_⟩
  · intro tbl n v hf hrows
    simp [DatasetRepository.get_dataset, hf, hrows]
  · intro tbl ids n v hf hrows
    simp [DatasetRepository.get_dataset_id, hf, hrows]
  · intro tbl n hn hf hrows
    simp [ModelRepository.get_model, hn, hf, hrows]
  · intro tbl n hn hf hrows
    simp [ModelRepository.get_artifact_uri, ModelRepository.get_model, hn, hf, hrows,
      Except.map]
  · intro tbl n hn hf hrows
    simp [RunRepository.get_run, hn, hf, hrows]
  · intro tbl ids n hn hf hrows
    simp [RunRepository.get_run_id, hn, hf, hrows]
  · intro tbl m hn hf hrows
    simp [ModelRepository.update_model, hn, hf, hrows]
  · intro tbl n hn hf hrows
    simp [ModelRepository.delete_model, hn, hf, hrows]
  · intro tbl run hn hf hrows
    simp [RunRepository.update_run, Run.to_record, pyOrStr, hn, hf, hrows]
  · intro tbl n hn hf hrows
    simp [RunRepository.delete_run, hn, hf, hrows]
  · intro tbl n v hn hv hf hrows
    refine ⟨{ tbl with
              rows := tbl.rows.filter
                (fun r => !(decide (r.name = n) && decide (r.version = v))) }, ?_⟩
    simp [DatasetRepository.delete_dataset, hn, hv, hf, hrows]

/-- Witness for C4 on concrete empty tables. -/
theorem missing_row_policy_w :
    DatasetRepository.get_dataset ⟨[], []⟩ "x" "1" = .ok none ∧
    DatasetRepository.get_dataset_id ⟨[], []⟩ (fun _ => none) "x" "1" = .ok none ∧
    ModelRepository.get_model ⟨[], []⟩ "x" = .ok none ∧
    ModelRepository.get_artifact_uri ⟨[], []⟩ "x" = .ok none ∧
    RunRepository.get_run ⟨[], []⟩ "x" = .ok none ∧
    RunRepository.get_run_id ⟨[], []⟩ (fun _ => none) "x" = .ok none ∧
    ModelRepository.update_model ⟨[], []⟩ ⟨"u", "m1", "r1", "registered"⟩ =
      .error (.runtimeError "No model found to update") ∧
    ModelRepository.delete_model ⟨[], []⟩ "x" =
      .error (.runtimeError "No model found to delete") ∧
    RunRepository.update_run ⟨[], []⟩ ⟨"d1", "a", [], none, "r1", [], 0, none⟩ =
      .error (.runtimeError "No run found to update") ∧
    RunRepository.delete_run ⟨[], []⟩ "x" =
      .error (.runtimeError "No run found to delete") ∧
    ∃ tbl2, DatasetRepository.delete_dataset ⟨[], []⟩ "x" "1" = .ok (tbl2, 0) :=
  ⟨missing_row_policy.1 ⟨[], []⟩ "x" "1" (by decide) rfl,
   missing_row_policy.2.1 ⟨[], []⟩ (fun _ => none) "x" "1" (by decide) rfl,
   missing_row_policy.2.2.1 ⟨[], []⟩ "x" (by decide) (by decide) rfl,
   missing_row_policy.2.2.2.1 ⟨[], []⟩ "x" (by decide) (by decide) rfl,
   missing_row_policy.2.2.2.2.1 ⟨[], []⟩ "x" (by decide) (by decide) rfl,
   missing_row_policy.2.2.2.2.2.1 ⟨[], []⟩ (fun _ => none) "x"
     (by decide) (by decide) rfl,
   missing_row_policy.2.2.2.2.2.2.1 ⟨[], []⟩ ⟨"u", "m1", "r1", "registered"⟩
     (by decide) (by decide) rfl,
   missing_row_policy.2.2.2.2.2.2.2.1 ⟨[], []⟩ "x" (by decide) (by decide) rfl,
   missing_row_policy.2.2.2.2.2.2.2.2.1 ⟨[], []⟩ ⟨"d1", "a", [], none, "r1", [], 0, none⟩
     (by decide) (by decide) rfl,
   missing_row_policy.2.2.2.2.2.2.2.2.2.1 ⟨[], []⟩ "x" (by decide) (by decide) rfl,
   missing_row_policy.2.2.2.2.2.2.2.2.2.2 ⟨[], []⟩ "x" "1" (by decide) (by decide)
     (by decide) rfl⟩

/-- Claim C5 counterexample: an empty run name in `RunRepository.batch_get` is
not skipped — the `ValueError` raised by the per-item `get_run` propagates and
the batch call itself raises a validation error. -/
theorem run_batch_get_empty_name_cx :
    RunRepository.batch_get ⟨[], []⟩ [""] =
      .error (.valueError "Run name is required to retrieve a run") :=
  rfl

/-- Claim C5 as amended: items with an empty name, version or run name are
silently skipped by `DatasetRepository.batch_get`/`batch_delete`,
`ModelRepository.batch_get` and `RunRepository.batch_create`; but in
`RunRepository.batch_get` an empty run name makes the per-item `get_run` raise
a validation error that is not caught (only `RuntimeError` is) and aborts the
batch call. -/
theorem batch_invalid_item_policy :
    (∀ (tbl : DatasetTable) (n v : String) (ps : List (String × String)),
      n = "" ∨ v = "" →
      DatasetRepository.batch_get tbl ((n, v) :: ps) =
        DatasetRepository.batch_get tbl ps) ∧
    (∀ (tbl : DatasetTable) (n v : String) (ps : List (String × String)),
      n = "" ∨ v = "" →
      DatasetRepository.batch_delete tbl ((n, v) :: ps) =
        DatasetRepository.batch_delete tbl ps) ∧
    (∀ (tbl : ModelTable) (arg : PyArg) (rest : List PyArg),
      pyTruthy arg = false →
      ModelRepository.batch_get tbl (arg :: rest) = ModelRepository.batch_get tbl rest) ∧
    (∀ (tbl : RunTable) (run : Run) (runs : List Run) (now : Datetime),
      run.run_name = "" →
      RunRepository.batch_create tbl (run :: runs) now =
        RunRepository.batch_create tbl runs now) ∧
    (∀ (tbl : RunTable) (ns : List String),
      RunRepository.batch_get tbl ("" :: ns) =
        .error (.valueError "Run name is required to retrieve a run")) := by
  refine ⟨?_, ?_, ?_, ?_, ?_⟩
  · intro tbl n v ps h
    simp only [DatasetRepository.batch_get, DatasetRepository.collect]
    rw [if_pos h]
  · intro tbl n v ps h
    simp only [DatasetRepository.batch_delete]
    rw [if_pos h]
  · intro tbl arg rest h
    cases rest <;> simp [ModelRepository.batch_get, ModelRepository.collect, h]
  · intro tbl run runs now h
    simp [RunRepository.batch_create, h]
  · intro tbl ns
    simp [RunRepository.batch_get, RunRepository.collect, RunRepository.get_run,
      Except.map]

/-- Witness for C5 at concrete batches. -/
theorem batch_invalid_item_policy_w :
    DatasetRepository.batch_get ⟨[], []⟩ [("", "2")] =
      DatasetRepository.batch_get ⟨[], []⟩ [] ∧
    DatasetRepository.batch_delete ⟨[], []⟩ [("", "2")] =
      DatasetRepository.batch_delete ⟨[], []⟩ [] ∧
    ModelRepository.batch_get ⟨[], []⟩ [PyArg.pyStr ""] =
      ModelRepository.batch_get ⟨[], []⟩ [] ∧
    RunRepository.batch_create ⟨[], []⟩ [⟨"d", "a", [], none, "", [], 0, none⟩] 0 =
      RunRepository.batch_create ⟨[], []⟩ [] 0 ∧
    RunRepository.batch_get ⟨[], []⟩ [""] =
      .error (.valueError "Run name is required to retrieve a run") :=
  ⟨batch_invalid_item_policy.1 ⟨[], []⟩ "" "2" [] (Or.inl rfl),
   batch_invalid_item_policy.2.1 ⟨[], []⟩ "" "2" [] (Or.inl rfl),
   batch_invalid_item_policy.2.2.1 ⟨[], []⟩ (.pyStr "") [] (by decide),
   batch_invalid_item_policy.2.2.2.1 ⟨[], []⟩ ⟨"d", "a", [], none, "", [], 0, none⟩ [] 0 rfl,
   batch_invalid_item_policy.2.2.2.2 ⟨[], []⟩ []⟩

/-- Claim C6: a per-item lookup failing with the uniform storage `RuntimeError`
is caught and skipped by `RunRepository.batch_get`, with every remaining name
still processed; the same failure in `DatasetRepository.batch_get` or
`ModelRepository.batch_get` propagates and aborts the batch. -/
theorem batch_transport_failure_policy :
    (∀ (tbl : RunTable) (n : String) (ns : List String),
      n ≠ "" → n ∈ tbl.failNames →
      RunRepository.collect tbl (n :: ns) = RunRepository.collect tbl ns) ∧
    (∀ (tbl : RunTable) (n : String) (ns : List String),
      n ≠ "" → n ∈ tbl.failNames →
      RunRepository.batch_get tbl (n :: ns) = (RunRepository.collect tbl ns).map .bare) ∧
    (∀ (tbl : DatasetTable) (n v : String) (ps : List (String × String)),
      n ≠ "" → v ≠ "" → (n, v) ∈ tbl.failKeys →
      DatasetRepository.batch_get tbl ((n, v) :: ps) =
        .error (.runtimeError "Error retrieving dataset: transport failure")) ∧
    (∀ (tbl : ModelTable) (s : String) (rest : List PyArg),
      s ≠ "" → s ∈ tbl.failNames →
      ModelRepository.batch_get tbl (.pyStr s :: rest) =
        .error (.runtimeError "Failed to retrieve model: transport failure")) := by
  refine ⟨?_, ?_, ?_, ?_⟩
  · intro tbl n ns hn hf
    simp [RunRepository.collect, RunRepository.get_run, hn, hf]
  · intro tbl n ns hn hf
    simp [RunRepository.batch_get, RunRepository.collect, RunRepository.get_run, hn, hf]
  · intro tbl n v ps hn hv hf
    simp [DatasetRepository.batch_get, DatasetRepository.collect,
      DatasetRepository.get_dataset, Except.map, hn, hv, hf]
  · intro tbl s rest hs hf
    simp [ModelRepository.batch_get, ModelRepository.collect, ModelRepository.get_model,
      pyTruthy, hs, hf]

/-- Witness for C6 at concrete tables with one broken key. -/
theorem batch_transport_failure_policy_w :
    RunRepository.collect ⟨[], ["bad"]⟩ ["bad"] = RunRepository.collect ⟨[], ["bad"]⟩ [] ∧
    RunRepository.batch_get ⟨[], ["bad"]⟩ ["bad", "x"] =
      (RunRepository.collect ⟨[], ["bad"]⟩ ["x"]).map .bare ∧
    DatasetRepository.batch_get ⟨[], [("bad", "1")]⟩ [("bad", "1")] =
      .error (.runtimeError "Error retrieving dataset: transport failure") ∧
    ModelRepository.batch_get ⟨[], ["bad"]⟩ [.pyStr "bad"] =
      .error (.runtimeError "Failed to retrieve model: transport failure") :=
  ⟨batch_transport_failure_policy.1 ⟨[], ["bad"]⟩ "bad" [] (by decide) (by decide),
   batch_transport_failure_policy.2.1 ⟨[], ["bad"]⟩ "bad" ["x"] (by decide) (by decide),
   batch_transport_failure_policy.2.2.1 ⟨[], [("bad", "1")]⟩ "bad" "1" []
     (by decide) (by decide) (by decide),
   batch_transport_failure_policy.2.2.2 ⟨[], ["bad"]⟩ "bad" [] (by decide) (by decide)⟩

/-- Claim C7 counterexample: the non-string entry `None` in
`ModelRepository.batch_get` is silently skipped (the falsy check runs first),
not rejected with a validation error as the claim asserts. -/
theorem model_batch_get_none_entry_cx :
    ModelRepository.batch_get ⟨[], []⟩ [PyArg.pyNone] = .ok [] :=
  rfl

/-- Claim C7 as amended: in `ModelRepository.batch_get` every truthy non-string
entry raises `ValueError`; falsy entries — the empty string, but also falsy
non-strings such as `None` or `0` — are silently skipped, as are names whose
lookup returns absent. -/
theorem model_batch_get_entry_policy :
    (∀ (tbl : ModelTable) (arg : PyArg) (rest : List PyArg),
      pyTruthy arg = true → arg.isStr = false →
      ModelRepository.collect tbl (arg :: rest) =
        .error (.valueError "Model names must be strings")) ∧
    (∀ (tbl : ModelTable) (arg : PyArg) (rest : List PyArg),
      pyTruthy arg = false →
      ModelRepository.collect tbl (arg :: rest) = ModelRepository.collect tbl rest) ∧
    (∀ (tbl : ModelTable) (s : String) (rest : List PyArg),
      s ≠ "" → ModelRepository.get_model tbl s = .ok none →
      ModelRepository.collect tbl (.pyStr s :: rest) = ModelRepository.collect tbl rest) ∧
    (∀ (tbl : ModelTable) (args : List PyArg), args ≠ [] →
      ModelRepository.batch_get tbl args = ModelRepository.collect tbl args) := by
  refine ⟨?_, ?_, ?_, ?_⟩
  · intro tbl arg rest ht hs
    cases arg <;> simp_all [ModelRepository.collect, pyTruthy, PyArg.isStr]
  · intro tbl arg rest h
    simp [ModelRepository.collect, h]
  · intro tbl s rest hs hget
    simp [ModelRepository.collect, pyTruthy, hs, hget]
  · intro tbl args h
    cases args with
    | nil => exact absurd rfl h
    | cons a as => simp [ModelRepository.batch_get]

/-- Witness for C7 at concrete entries. -/
theorem model_batch_get_entry_policy_w :
    ModelRepository.collect ⟨[], []⟩ [PyArg.pyInt 1] =
      .error (.valueError "Model names must be strings") ∧
    ModelRepository.collect ⟨[], []⟩ [PyArg.pyNone] = ModelRepository.collect ⟨[], []⟩ [] ∧
    ModelRepository.collect ⟨[], []⟩ [PyArg.pyStr "x"] =
      ModelRepository.collect ⟨[], []⟩ [] ∧
    ModelRepository.batch_get ⟨[], []⟩ [PyArg.pyStr "x"] =
      ModelRepository.collect ⟨[], []⟩ [PyArg.pyStr "x"] :=
  ⟨model_batch_get_entry_policy.1 ⟨[], []⟩ (.pyInt 1) [] (by decide) (by decide),
   model_batch_get_entry_policy.2.1 ⟨[], []⟩ .pyNone [] (by decide),
   model_batch_get_entry_policy.2.2.1 ⟨[], []⟩ "x" [] (by decide) rfl,
   model_batch_get_entry_policy.2.2.2 ⟨[], []⟩ [.pyStr "x"] (by decide)⟩

/-- The result list of a successful `DatasetRepository.collect` is exactly the
per-pair lookup results of the valid pairs. -/
theorem dataset_collect_ok_eq (tbl : DatasetTable) (ps : List (String × String))
    (ds : List Dataset) (h : DatasetRepository.collect tbl ps = .ok ds) :
    ds = ps.filterMap (fun p =>
      if p.1 = "" ∨ p.2 = "" then none
      else match DatasetRepository.get_dataset tbl p.1 p.2 with
        | .ok (some d) => some d
        | _ => none) := by
  induction ps generalizing ds with
  | nil =>
    simp [DatasetRepository.collect] at h
    simp [← h]
  | cons p ps ih =>
    obtain ⟨n, v⟩ := p
    by_cases hv : n = "" ∨ v = ""
    · rw [show DatasetRepository.collect tbl ((n, v) :: ps) =
          DatasetRepository.collect tbl ps by
            simp only [DatasetRepository.collect]; rw [if_pos hv]] at h
      simp [List.filterMap_cons, hv, ih _ h]
    · cases hg : DatasetRepository.get_dataset tbl n v with
      | error e =>
        rw [show DatasetRepository.collect tbl ((n, v) :: ps) = .error e by
          simp only [DatasetRepository.collect]; rw [if_neg hv, hg]] at h
        cases h
      | ok o =>
        cases o with
        | none =>
          rw [show DatasetRepository.collect tbl ((n, v) :: ps) =
              DatasetRepository.collect tbl ps by
                simp only [DatasetRepository.collect]; rw [if_neg hv, hg]] at h
          simp [List.filterMap_cons, hv, hg, ih _ h]
        | some d =>
          cases hc : DatasetRepository.collect tbl ps with
          | error e =>
            rw [show DatasetRepository.collect tbl ((n, v) :: ps) = .error e by
              simp only [DatasetRepository.collect]; rw [if_neg hv, hg, hc]; rfl] at h
            cases h
          | ok ds0 =>
            rw [show DatasetRepository.collect tbl ((n, v) :: ps) = .ok (d :: ds0) by
              simp only [DatasetRepository.collect]; rw [if_neg hv, hg, hc]; rfl] at h
            cases h
            simp [List.filterMap_cons, hv, hg, ih _ hc]

/-- Claim C8: `DatasetRepository.batch_get` is a sequential per-pair get that
issues zero remote calls for pairs with an empty name or version (silently
skipping them) and, on success, returns the found datasets paired with a count
equal to the number of non-absent results; includes the spec scenario against
a store containing only `("a", "1")`. -/
theorem dataset_batch_get_spec :
    (∀ (tbl : DatasetTable) (ps : List (String × String)) (ds : List Dataset) (k : Nat),
      DatasetRepository.batch_get tbl ps = .ok (ds, k) →
      k = ds.length ∧
      ds = ps.filterMap (fun p =>
        if p.1 = "" ∨ p.2 = "" then none
        else match DatasetRepository.get_dataset tbl p.1 p.2 with
          | .ok (some d) => some d
          | _ => none)) ∧
    (∀ (tbl : DatasetTable) (n v : String) (ps : List (String × String)),
      n = "" ∨ v = "" →
      DatasetRepository.batch_get_calls tbl ((n, v) :: ps) =
        DatasetRepository.batch_get_calls tbl ps ∧
      DatasetRepository.batch_get tbl ((n, v) :: ps) =
        DatasetRepository.batch_get tbl ps) ∧
    (DatasetRepository.batch_get ⟨[⟨"a", "1", "s3://x", "alice", none⟩], []⟩
        [("a", "1"), ("", "2"), ("b", "")] =
      .ok ([⟨"a", "1", "s3://x", "alice", none⟩], 1) ∧
     DatasetRepository.batch_get_calls ⟨[⟨"a", "1", "s3://x", "alice", none⟩], []⟩
        [("a", "1"), ("", "2"), ("b", "")] = 1) := by
  refine ⟨?_, ?_, rfl, rfl⟩
  · intro tbl ps ds k h
    rw [DatasetRepository.batch_get] at h
    cases hc : DatasetRepository.collect tbl ps with
    | error e =>
      rw [hc] at h
      simp [Except.map] at h
    | ok ds0 =>
      rw [hc] at h
      simp only [Except.map, Except.ok.injEq, Prod.mk.injEq] at h
      obtain ⟨h1, h2⟩ := h
      subst h1
      subst h2
      exact ⟨rfl, dataset_collect_ok_eq tbl ps _ hc⟩
  · intro tbl n v ps h
    constructor
    · simp only [DatasetRepository.batch_get_calls]; rw [if_pos h]
    · simp only [DatasetRepository.batch_get, DatasetRepository.collect]; rw [if_pos h]

/-- Witness for C8 applying the characterization at the spec scenario. -/
theorem dataset_batch_get_spec_w :
    ((1 : Nat) = ([(⟨"a", "1", "s3://x", "alice", none⟩ : Dataset)]).length ∧
      [(⟨"a", "1", "s3://x", "alice", none⟩ : Dataset)] =
        ([("a", "1"), ("", "2"), ("b", "")] : List (String × String)).filterMap
          (fun p =>
            if p.1 = "" ∨ p.2 = "" then none
            else match DatasetRepository.get_dataset
                ⟨[⟨"a", "1", "s3://x", "alice", none⟩], []⟩ p.1 p.2 with
              | .ok (some d) => some d
              | _ => none)) ∧
    DatasetRepository.batch_get_calls ⟨[], []⟩ [("", "2")] =
      DatasetRepository.batch_get_calls ⟨[], []⟩ [] :=
  ⟨dataset_batch_get_spec.1 ⟨[⟨"a", "1", "s3://x", "alice", none⟩], []⟩
      [("a", "1"), ("", "2"), ("b", "")] [⟨"a", "1", "s3://x", "alice", none⟩] 1 rfl,
   (dataset_batch_get_spec.2.1 ⟨[], []⟩ "" "2" [] (Or.inl rfl)).1⟩
